import Mathlib

/-!
# Verification of the vinyl-scrobbler playback/scrobbling core

A shallow embedding of the playback state machine and duration-resolution
code of `vinyl_scrobbler.py` (class `VinylScrobbler`), together with proofs
about the spec's claims.

Modelling conventions:
* Python machine state (the fields of the `VinylScrobbler` object touched by
  the playback core) becomes the record `EngineState`, threaded explicitly.
* A method that can raise an exception returns `Except EngineState EngineState`;
  the `error` payload is the state at the moment the exception propagates
  (Python mutations performed before the raise persist).
* Calls to the external Last.fm network object are recorded as `Event`s in
  `EngineState.events`; the outcome of a fallible call is an explicit `Bool`
  or `LookupResult` parameter.
* `threading.Timer` objects are modelled by numeric ids: `scrobble_timer` is
  the handle stored in the Python attribute, `armed` is the set (list) of
  timers that have been started and neither cancelled nor fired.
* Python `int` is `Int`; list indexing follows Python semantics (negative
  indices address from the end) via `pyIndex`.
-/

/-- `@dataclass class Track` of `vinyl_scrobbler.py`. -/
structure Track where
  position : String
  title : String
  duration : String
  duration_seconds : Int
  artist : String
  album : String
deriving Repr, DecidableEq

/-- A call made to an external collaborator (Last.fm network, end-of-album
report).  Recorded in the order the calls are made. -/
inductive Event where
  /-- `self.network.update_now_playing(artist=…, title=…, album=…, duration=…)`
  in `start_playback`. -/
  | nowPlaying (artist title album : String) (duration : Int)
  /-- `self.network.scrobble(artist=…, title=…, timestamp=…, album=…, duration=…)`
  in `scrobble_track`. -/
  | scrobble (artist title album : String) (duration : Int) (timestamp : Nat)
  /-- the "Playback finished / End of album reached" report in
  `handle_track_end`. -/
  | albumEnded
deriving Repr, DecidableEq

/-- The mutable fields of the `VinylScrobbler` object used by the playback
core, plus the bookkeeping for timers and external calls. -/
structure EngineState where
  tracks : List Track
  current_track_index : Int
  is_playing : Bool
  /-- the Python attribute `self.scrobble_timer`: the id of the most recently
  stored `threading.Timer`, if any was ever stored. -/
  scrobble_timer : Option Nat
  /-- ids of completion timers that were started and are still pending
  (neither cancelled nor fired). -/
  armed : List Nat
  /-- fresh id supply for newly created timers. -/
  next_timer_id : Nat
  /-- the Python attribute `self.stop_timer` controlling the progress ticker. -/
  stop_timer : Bool
  /-- the Python attribute `self.show_notifications`. -/
  show_notifications : Bool
  /-- calls made to external collaborators so far, oldest first. -/
  events : List Event
deriving Repr, DecidableEq

/-- The state built by `VinylScrobbler.init`: no album, index 0, stopped. -/
def initState : EngineState :=
  { tracks := []
    current_track_index := 0
    is_playing := false
    scrobble_timer := none
    armed := []
    next_timer_id := 0
    stop_timer := false
    show_notifications := true
    events := [] }

/-- Python list indexing `l[i]`: valid for `-len ≤ i < len`, negative indices
count from the end; out of range raises `IndexError` (here `none`). -/
def pyIndex (l : List Track) (i : Int) : Option Track :=
  if 0 ≤ i then l.get? i.toNat
  else if -(l.length : Int) ≤ i then l.get? (i + l.length).toNat
  else none

/-- `scrobble_track` (lines 1102–1115): calls `self.network.scrobble` with
`timestamp = int(time.time())`; the whole body is wrapped in
`try/except` that only logs on failure, so the method never raises and its
only engine-visible effect is the call itself. -/
def scrobble_track (now : Nat) (t : Track) (s : EngineState) : EngineState :=
  { s with events :=
      s.events ++ [Event.scrobble t.artist t.title t.album t.duration_seconds now] }

/-- Cancel the timer whose handle is currently stored in `scrobble_timer`
(`self.scrobble_timer.cancel()`): removes it from the pending set; cancelling
a timer that already fired or was already cancelled is a no-op. -/
def cancelStoredTimer (s : EngineState) : EngineState :=
  match s.scrobble_timer with
  | some h => { s with armed := s.armed.erase h }
  | none => s

/-- `start_playback` (lines 1003–1041).  `npOk` is the outcome of the
`self.network.update_now_playing` call.  On failure the exception is logged
and re-raised (`raise` in the `except` clause), with `is_playing` still
unchanged and no timer armed.  On success a **new** completion timer is
created and started and its handle overwrites `scrobble_timer` — the previous
timer, if still pending, is *not* cancelled.  `update_title_with_timer` sets
`stop_timer = False` and starts the progress ticker thread. -/
def start_playback (npOk : Bool) (s : EngineState) : Except EngineState EngineState :=
  match pyIndex s.tracks s.current_track_index with
  | none => Except.error s
  | some t =>
    let s1 := { s with events :=
        s.events ++ [Event.nowPlaying t.artist t.title t.album t.duration_seconds] }
    if npOk then
      Except.ok { s1 with
        is_playing := true
        scrobble_timer := some s1.next_timer_id
        armed := s1.next_timer_id :: s1.armed
        next_timer_id := s1.next_timer_id + 1
        stop_timer := false }
    else
      Except.error s1

/-- `stop_playback` (lines 1043–1065): sets `is_playing = False`, cancels the
stored completion timer, sets `stop_timer = True` (and joins the ticker
thread), then updates the player window with
`self.tracks[self.current_track_index]` — which raises `IndexError` (logged
and re-raised) when the index is invalid. -/
def stop_playback (s : EngineState) : Except EngineState EngineState :=
  let s1 := cancelStoredTimer { s with is_playing := false }
  let s2 := { s1 with stop_timer := true }
  match pyIndex s2.tracks s2.current_track_index with
  | none => Except.error s2
  | some _ => Except.ok s2

/-- `handle_track_end` (lines 1067–1088): inside a `try` block, return if not
playing; otherwise scrobble `tracks[current_track_index]`, increment the
index, and either wrap to 0 / stop / report end of album (when the
incremented index reaches the length) or start playback of the new current
track.  The `except` clause logs and calls `stop_playback()` (whose own
exception, if any, propagates to the caller). -/
def handle_track_end (npOk : Bool) (now : Nat) (s : EngineState) :
    Except EngineState EngineState :=
  if s.is_playing = false then Except.ok s
  else
    match pyIndex s.tracks s.current_track_index with
    | none => stop_playback s
    | some t =>
      let s1 := scrobble_track now t s
      let s2 := { s1 with current_track_index := s1.current_track_index + 1 }
      if (s2.tracks.length : Int) ≤ s2.current_track_index then
        let s3 := { s2 with current_track_index := 0 }
        match stop_playback s3 with
        | Except.ok s4 =>
          Except.ok (if s4.show_notifications
            then { s4 with events := s4.events ++ [Event.albumEnded] }
            else s4)
        | Except.error s4 => stop_playback s4
      else
        match start_playback npOk s2 with
        | Except.ok s3 => Except.ok s3
        | Except.error s3 => stop_playback s3

/-- `next_track` / `nextTrack_` (lines 951–961 / 427–438): no-op on an empty
track list, otherwise `handle_track_end`, with any escaping exception caught
and logged (an alert is shown; the state reached at the raise persists). -/
def next_track (npOk : Bool) (now : Nat) (s : EngineState) : EngineState :=
  if s.tracks.isEmpty then s
  else
    match handle_track_end npOk now s with
    | Except.ok s1 => s1
    | Except.error s1 => s1

/-- `previous_track` / `previousTrack_` (lines 963–977 / 440–454): no-op on an
empty track list; otherwise decrement `current_track_index`, wrapping to
`len(tracks) - 1` when it goes below 0.  Nothing else is touched: playback
state, timers and external calls are all left as they were. -/
def previous_track (s : EngineState) : EngineState :=
  if s.tracks.isEmpty then s
  else
    let i := s.current_track_index - 1
    { s with current_track_index :=
        if i < 0 then (s.tracks.length : Int) - 1 else i }

/-- `togglePlayback_` (lines 984–1001): alert-and-return on an empty track
list; stop when playing, start when stopped; the surrounding `try/except`
swallows (logs) any exception. -/
def togglePlayback (npOk : Bool) (s : EngineState) : EngineState :=
  if s.tracks.isEmpty then s
  else if s.is_playing then
    match stop_playback s with
    | Except.ok s1 => s1
    | Except.error s1 => s1
  else
    match start_playback npOk s with
    | Except.ok s1 => s1
    | Except.error s1 => s1

/-- A pending `threading.Timer` fires: it removes itself from the pending set
and runs `handle_track_end` on the timer thread (an exception escaping
`handle_track_end` kills only the timer thread; state mutations persist).
A cancelled or already-fired timer never fires. -/
def timer_fire (npOk : Bool) (now : Nat) (h : Nat) (s : EngineState) : EngineState :=
  if s.armed.contains h then
    let s1 := { s with armed := s.armed.erase h }
    match handle_track_end npOk now s1 with
    | Except.ok s2 => s2
    | Except.error s2 => s2
  else s

/-- Python whitespace, as far as `str.strip()` and `int()` accept it. -/
def pyIsSpace (c : Char) : Bool :=
  c = ' ' || c = '\t' || c = '\n' || c = '\r'

/-- Python `str.strip()`: drop whitespace from both ends. -/
def pyStrip (s : String) : String :=
  String.mk (((s.toList.dropWhile pyIsSpace).reverse.dropWhile pyIsSpace).reverse)

/-- Helper for `pySplitColon`: the accumulator holds the current piece,
reversed. -/
def splitColonAux : List Char → List Char → List String
  | [], acc => [String.mk acc.reverse]
  | c :: cs, acc =>
    if c = ':' then String.mk acc.reverse :: splitColonAux cs []
    else splitColonAux cs (c :: acc)

/-- Python `str.split(':')`: one piece per run between colons, so an input
with `k` colons yields `k + 1` pieces (possibly empty). -/
def pySplitColon (s : String) : List String := splitColonAux s.toList []

/-- Python `int(str)`: optional surrounding whitespace, optional sign, at
least one digit; anything else raises `ValueError` (here `none`). -/
def pyInt (str : String) : Option Int :=
  let t := (pyStrip str).toList
  let signDigits : Int × List Char :=
    match t with
    | '-' :: rest => (-1, rest)
    | '+' :: rest => (1, rest)
    | _ => (1, t)
  if signDigits.2 ≠ [] ∧ signDigits.2.all Char.isDigit then
    some (signDigits.1 *
      ((signDigits.2.foldl (fun acc c => acc * 10 + (c.toNat - 48)) 0 : Nat) : Int))
  else none

/-- `sum(int(x) * 60**i for i, x in enumerate(reversed(parts)))` in
`get_track_duration`; `none` when some `int(x)` raises `ValueError`. -/
def sumPartsAux : List String → Nat → Option Int
  | [], _ => some 0
  | x :: xs, i =>
    match pyInt x, sumPartsAux xs (i + 1) with
    | some v, some r => some (v * 60 ^ i + r)
    | _, _ => none

/-- The summation over `reversed(duration_parts)` (lines 717–718). -/
def sumParts (parts : List String) : Option Int :=
  sumPartsAux parts.reverse 0

/-- Outcome of `self.network.get_track(artist, title).get_duration()`. -/
inductive LookupResult where
  /-- the call returned this many milliseconds. -/
  | ok (ms : Int)
  /-- the call raised (network error, track not found). -/
  | err
deriving Repr, DecidableEq

/-- Two-digit zero-padded seconds as in `f"{minutes}:{seconds:02d}"`. -/
def fmtMinSec (secs : Int) : String :=
  let m := secs / 60
  let sc := secs % 60
  toString m ++ ":" ++ (if sc < 10 then "0" else "") ++ toString sc

/-- `get_track_duration_from_lastfm` (lines 682–706): a positive
millisecond duration is divided by 1000 and formatted `minutes:seconds(2d)`;
anything else (call raised, zero/negative/missing duration) raises. -/
def get_track_duration_from_lastfm (lookup : LookupResult) :
    Except Unit (String × Int) :=
  match lookup with
  | LookupResult.err => Except.error ()
  | LookupResult.ok ms =>
    if 0 < ms then
      let secs := ms / 1000
      Except.ok (fmtMinSec secs, secs)
    else
      Except.error ()

/-- `get_track_duration` (lines 708–729): a non-empty, non-blank catalog
duration string is split on `:` and summed positionally — with **no**
`try` around it, so an unparseable component propagates `ValueError` —
otherwise Last.fm is tried, and any Last.fm failure falls back to
`('3:30', 210)`. -/
def get_track_duration (trackDuration : String) (lookup : LookupResult) :
    Except Unit (String × Int) :=
  if trackDuration ≠ "" ∧ pyStrip trackDuration ≠ "" then
    match sumParts (pySplitColon trackDuration) with
    | some secs => Except.ok (trackDuration, secs)
    | none => Except.error ()
  else
    match get_track_duration_from_lastfm lookup with
    | Except.ok r => Except.ok r
    | Except.error _ => Except.ok ("3:30", 210)

/-- One raw entry of `release.tracklist` as used by `load_album`. -/
structure RawTrack where
  /-- `track.type_`; `'heading'` entries are skipped. -/
  type_ : String
  position : String
  title : String
  /-- `getattr(track, 'duration', '')`. -/
  duration : String
deriving Repr, DecidableEq

/-- The parts of a Discogs release object read by `load_album`. -/
structure Release where
  artists : List String
  title : String
  tracklist : List RawTrack
deriving Repr, DecidableEq

/-- The per-track duration computation inlined in `load_album`
(lines 864–886): empty string defaults to `"3:30"`; a 2- or 3-part
colon-separated value is summed and clamped with `max(…, 1)`; any other
shape, or a `ValueError` from `int`, falls back to `("3:30", 210)`. -/
def parse_duration_load (d : String) : String × Int :=
  let duration := if d = "" then "3:30" else d
  if duration.toList.contains ':' then
    let parts := pySplitColon duration
    if parts.length = 2 then
      match pyInt (parts.getD 0 ""), pyInt (parts.getD 1 "") with
      | some m, some sec => (duration, max (m * 60 + sec) 1)
      | _, _ => ("3:30", 210)
    else if parts.length = 3 then
      match pyInt (parts.getD 0 ""), pyInt (parts.getD 1 ""), pyInt (parts.getD 2 "") with
      | some h, some m, some sec => (duration, max (h * 3600 + m * 60 + sec) 1)
      | _, _, _ => ("3:30", 210)
    else
      ("3:30", 210)
  else
    ("3:30", 210)

/-- Build the `Track` object `load_album` appends for one playable raw
entry (lines 888–897). -/
def buildTrack (artist album : String) (t : RawTrack) : Track :=
  let (dur, secs) := parse_duration_load t.duration
  { position := t.position
    title := t.title
    duration := dur
    duration_seconds := secs
    artist := artist
    album := album }

/-- `load_album` (lines 802–916): a falsy release is a pure no-op; otherwise
`self.tracks` is cleared and rebuilt from the non-heading entries of
`release.tracklist`, the index is reset to 0, playback is marked stopped and
the stored completion timer is cancelled.  No error is raised when zero
playable tracks remain — the engine is simply left with an empty track
list.  (Artwork fetching and window/menu updates are presentation-only.) -/
def load_album (release : Option Release) (s : EngineState) : EngineState :=
  match release with
  | none => s
  | some r =>
    let artist := r.artists.headD ""
    let newTracks :=
      (r.tracklist.filter (fun t => t.type_ ≠ "heading")).map (buildTrack artist r.title)
    cancelStoredTimer
      { s with
        tracks := newTracks
        current_track_index := 0
        is_playing := false }

/-! ## Concrete fixtures -/

/-- `Event.isScrobble e` holds exactly for scrobble calls. -/
def Event.isScrobble : Event → Bool
  | Event.scrobble _ _ _ _ _ => true
  | _ => false

/-- `Event.isNowPlaying e` holds exactly for now-playing calls. -/
def Event.isNowPlaying : Event → Bool
  | Event.nowPlaying _ _ _ _ => true
  | _ => false

/-- First raw track of the two-track test album. -/
def rawA : RawTrack :=
  { type_ := "track", position := "A1", title := "Song One", duration := "2:05" }

/-- Second raw track of the two-track test album. -/
def rawB : RawTrack :=
  { type_ := "track", position := "A2", title := "Song Two", duration := "3:30" }

/-- A two-track release, as `load_album` reads it. -/
def relAB : Release := { artists := ["Artist"], title := "Album", tracklist := [rawA, rawB] }

/-- A release whose tracklist holds only a heading, hence zero playable tracks. -/
def relHeadingsOnly : Release :=
  { artists := ["Artist"], title := "Album"
    tracklist := [{ type_ := "heading", position := "", title := "Side A", duration := "" }] }

/-- The engine right after loading the two-track album at startup. -/
def sLoaded : EngineState := load_album (some relAB) initState

/-- The engine after the user then starts playback (now-playing call succeeds). -/
def sPlaying : EngineState := togglePlayback true sLoaded

/-- The first track of `sLoaded`, as `load_album` builds it. -/
def trackA : Track :=
  { position := "A1", title := "Song One", duration := "2:05"
    duration_seconds := 125, artist := "Artist", album := "Album" }

/-- The second track of `sLoaded`, as `load_album` builds it. -/
def trackB : Track :=
  { position := "A2", title := "Song Two", duration := "3:30"
    duration_seconds := 210, artist := "Artist", album := "Album" }

/-- The 2-track natural-completion trace: load the album, press play, then
let the completion timer fire twice (ids 0 and 1), as the spec's end-to-end
scenario describes. -/
def sAlbumEnd : EngineState := timer_fire true 200 1 (timer_fire true 100 0 sPlaying)

/-! ## General lemmas about the engine's steps -/

/-- `cancelStoredTimer` only touches the pending-timer set. -/
theorem cancelStoredTimer_eq (s : EngineState) :
    cancelStoredTimer s = { s with armed :=
      match s.scrobble_timer with
      | some h => s.armed.erase h
      | none => s.armed } := by
  unfold cancelStoredTimer
  cases h : s.scrobble_timer
  · simp only [h]
    rw [← h]
  · simp [h]

/-- `pyIndex` at a nonnegative index is plain list lookup. -/
theorem pyIndex_nonneg (l : List Track) (i : Int) (h0 : 0 ≤ i) :
    pyIndex l i = l.get? i.toNat := by
  simp [pyIndex, h0]

/-- An in-range nonnegative index resolves to some track. -/
theorem pyIndex_some_of_lt (l : List Track) (i : Int) (h0 : 0 ≤ i)
    (hlt : i < l.length) : ∃ t, pyIndex l i = some t := by
  rw [pyIndex_nonneg _ _ h0]
  have hn : i.toNat < l.length := by omega
  exact ⟨l.get ⟨i.toNat, hn⟩, List.get?_eq_get hn⟩

/-- A resolvable nonnegative index is in range. -/
theorem pyIndex_lt (l : List Track) (i : Int) (t : Track) (h0 : 0 ≤ i)
    (ht : pyIndex l i = some t) : i < l.length := by
  rw [pyIndex_nonneg _ _ h0] at ht
  have hn : i.toNat < l.length := List.get?_eq_some.mp ht |>.1
  omega

/-- `start_playback` when the now-playing call succeeds: mark playing, arm a
fresh completion timer (without cancelling any previous one), reset the
ticker flag, record the now-playing call. -/
theorem start_playback_ok (s : EngineState) (t : Track)
    (ht : pyIndex s.tracks s.current_track_index = some t) :
    start_playback true s = Except.ok { s with
      is_playing := true
      scrobble_timer := some s.next_timer_id
      armed := s.next_timer_id :: s.armed
      next_timer_id := s.next_timer_id + 1
      stop_timer := false
      events := s.events ++
        [Event.nowPlaying t.artist t.title t.album t.duration_seconds] } := by
  simp [start_playback, ht]

/-- `start_playback` when the now-playing call fails: the exception is
re-raised with the engine state untouched apart from the attempted call. -/
theorem start_playback_err (s : EngineState) (t : Track)
    (ht : pyIndex s.tracks s.current_track_index = some t) :
    start_playback false s = Except.error { s with events :=
      s.events ++ [Event.nowPlaying t.artist t.title t.album t.duration_seconds] } := by
  simp [start_playback, ht]

/-- `stop_playback` on a resolvable index: mark stopped, cancel the stored
completion timer, stop the ticker; everything else (index, tracks, events)
is untouched. -/
theorem stop_playback_ok (s : EngineState) (t : Track)
    (ht : pyIndex s.tracks s.current_track_index = some t) :
    stop_playback s = Except.ok { s with
      is_playing := false
      stop_timer := true
      armed := match s.scrobble_timer with
               | some h => s.armed.erase h
               | none => s.armed } := by
  simp [stop_playback, cancelStoredTimer_eq, ht]

/-- The decrement-with-wrap of `previous_track` is subtraction mod length. -/
theorem wrapDec_eq_emod (i n : Int) (h0 : 0 ≤ i) (hlt : i < n) :
    (if i - 1 < 0 then n - 1 else i - 1) = (i - 1) % n := by
  by_cases h : i - 1 < 0
  · have hi : i = 0 := by omega
    subst hi
    rw [if_pos h]
    have h1 : ((0 : Int) - 1 + n * 1) % n = (0 - 1) % n :=
      Int.add_mul_emod_self_left ..
    have h2 : ((0 : Int) - 1 + n * 1) = n - 1 := by ring
    rw [h2] at h1
    rw [← h1, Int.emod_eq_of_lt (by omega) (by omega)]
  · rw [if_neg h, Int.emod_eq_of_lt (by omega) (by omega)]

/-- Taking the representative first does not change subtracting one mod n. -/
theorem emod_sub_one_emod (a n : Int) : (a % n - 1) % n = (a - 1) % n := by
  rw [Int.sub_emod (a % n) 1 n, Int.emod_emod_of_dvd a dvd_rfl, ← Int.sub_emod]

/-- On a valid index, `previous_track` only replaces the index, by
subtraction of one mod the length. -/
theorem previous_track_eq (s : EngineState)
    (h0 : 0 ≤ s.current_track_index)
    (hlt : s.current_track_index < (s.tracks.length : Int)) :
    previous_track s = { s with current_track_index :=
      (s.current_track_index - 1) % (s.tracks.length : Int) } := by
  have hne : s.tracks.isEmpty = false := by
    rw [Bool.eq_false_iff, Ne, List.isEmpty_iff]
    intro h
    rw [h] at hlt
    simp at hlt
    omega
  simp [previous_track, hne]
  rw [← wrapDec_eq_emod s.current_track_index (s.tracks.length : Int) h0 hlt]
  exact if_congr (by omega) rfl rfl

/-- `k` applications of `previous_track` subtract `k` from the index, mod
the (unchanged) length. -/
theorem previous_track_iter (s : EngineState)
    (h0 : 0 ≤ s.current_track_index)
    (hlt : s.current_track_index < (s.tracks.length : Int)) :
    ∀ k : Nat, (previous_track^[k] s).tracks = s.tracks ∧
      (previous_track^[k] s).current_track_index =
        (s.current_track_index - k) % (s.tracks.length : Int) := by
  intro k
  induction k with
  | zero => simpa using (Int.emod_eq_of_lt h0 hlt).symm
  | succ k ih =>
    obtain ⟨htr, hidx⟩ := ih
    have hn0 : (0 : Int) < s.tracks.length := by omega
    have h0' : 0 ≤ (previous_track^[k] s).current_track_index := by
      rw [hidx]
      exact Int.emod_nonneg _ (by omega)
    have hlt' : (previous_track^[k] s).current_track_index <
        ((previous_track^[k] s).tracks.length : Int) := by
      rw [hidx, htr]
      exact Int.emod_lt_of_pos _ hn0
    rw [Function.iterate_succ_apply', previous_track_eq _ h0' hlt']
    constructor
    · simpa using htr
    · simp only [htr, hidx]
      rw [emod_sub_one_emod]
      congr 1
      push_cast
      ring

/-- The inline duration parse of `load_album` yields at least one second:
each parseable branch clamps with `max(…, 1)` and each fallback returns the
210-second default. -/
theorem parse_duration_load_pos (d : String) : 1 ≤ (parse_duration_load d).2 := by
  by_cases hd : d = ""
  · subst hd
    decide
  · simp only [parse_duration_load, if_neg hd]
    split
    · split
      · split
        · exact le_max_right _ 1
        · decide
      · split
        · split
          · exact le_max_right _ 1
          · decide
        · decide
    · decide

/-- The track list `load_album` installs: the non-heading raw entries,
each built by `buildTrack`. -/
theorem load_album_tracks (r : Release) (s : EngineState) :
    (load_album (some r) s).tracks =
      (r.tracklist.filter (fun t => t.type_ ≠ "heading")).map
        (buildTrack (r.artists.headD "") r.title) := by
  simp [load_album, cancelStoredTimer_eq]

/-- The duration a built `Track` carries comes from `parse_duration_load`. -/
theorem buildTrack_duration_seconds (a b : String) (t : RawTrack) :
    (buildTrack a b t).duration_seconds = (parse_duration_load t.duration).2 := rfl

/-! ## Claim theorems -/

/-- C1: for every loaded track list (valid index, notifications on),
`handle_track_end` is a no-op when not playing; when playing it emits
exactly one scrobble call for the just-finished track and advances the
index by one modulo the list length; if it was at the last index it stops
playback and reports end of album (engine stopped at index 0) instead of
starting the next track, otherwise it starts the next track (one
now-playing call).  The natural 2-track trace `sAlbumEnd` shows exactly
2 scrobble calls and 2 now-playing calls followed by the album-ended
report, ending stopped at index 0. -/
theorem handle_track_end_advances_and_scrobbles (s : EngineState) (now : Nat)
    (t : Track)
    (h0 : 0 ≤ s.current_track_index)
    (ht : pyIndex s.tracks s.current_track_index = some t)
    (hshow : s.show_notifications = true) :
    (s.is_playing = false → handle_track_end true now s = Except.ok s) ∧
    (s.is_playing = true → s.current_track_index + 1 = (s.tracks.length : Int) →
      handle_track_end true now s = Except.ok { s with
        current_track_index := 0
        is_playing := false
        stop_timer := true
        armed := match s.scrobble_timer with
                 | some h => s.armed.erase h
                 | none => s.armed
        events := s.events ++
          [Event.scrobble t.artist t.title t.album t.duration_seconds now,
           Event.albumEnded] }) ∧
    (s.is_playing = true → ∀ t2, s.current_track_index + 1 < (s.tracks.length : Int) →
      pyIndex s.tracks (s.current_track_index + 1) = some t2 →
      handle_track_end true now s = Except.ok { s with
        current_track_index := s.current_track_index + 1
        is_playing := true
        scrobble_timer := some s.next_timer_id
        armed := s.next_timer_id :: s.armed
        next_timer_id := s.next_timer_id + 1
        stop_timer := false
        events := s.events ++
          [Event.scrobble t.artist t.title t.album t.duration_seconds now,
           Event.nowPlaying t2.artist t2.title t2.album t2.duration_seconds] }) ∧
    (∀ s2, s.is_playing = true → handle_track_end true now s = Except.ok s2 →
      s2.current_track_index = (s.current_track_index + 1) % (s.tracks.length : Int)) ∧
    sAlbumEnd.events =
      [Event.nowPlaying "Artist" "Song One" "Album" 125,
       Event.scrobble "Artist" "Song One" "Album" 125 100,
       Event.nowPlaying "Artist" "Song Two" "Album" 210,
       Event.scrobble "Artist" "Song Two" "Album" 210 200,
       Event.albumEnded] ∧
    sAlbumEnd.events.countP Event.isScrobble = 2 ∧
    sAlbumEnd.events.countP Event.isNowPlaying = 2 ∧
    sAlbumEnd.is_playing = false ∧
    sAlbumEnd.current_track_index = 0 ∧
    sAlbumEnd.armed = [] := by
  have hlen : s.current_track_index < (s.tracks.length : Int) :=
    pyIndex_lt s.tracks s.current_track_index t h0 ht
  have hnoop : s.is_playing = false → handle_track_end true now s = Except.ok s := by
    intro hnp
    rw [handle_track_end, if_pos (by simp [hnp])]
  have hwrap : s.is_playing = true →
      s.current_track_index + 1 = (s.tracks.length : Int) →
      handle_track_end true now s = Except.ok { s with
        current_track_index := 0
        is_playing := false
        stop_timer := true
        armed := match s.scrobble_timer with
                 | some h => s.armed.erase h
                 | none => s.armed
        events := s.events ++
          [Event.scrobble t.artist t.title t.album t.duration_seconds now,
           Event.albumEnded] } := by
    intro hp heq
    rw [handle_track_end, if_neg (by simp [hp]), ht]
    simp only [scrobble_track]
    rw [if_pos (by omega)]
    obtain ⟨t0, ht0⟩ := pyIndex_some_of_lt s.tracks 0 le_rfl (by omega)
    have hstop := stop_playback_ok
      { s with current_track_index := 0
               events := s.events ++
                 [Event.scrobble t.artist t.title t.album t.duration_seconds now] } t0
      (by simpa using ht0)
    simp only [hstop]
    simp [hshow, List.append_assoc]
  have hadv : s.is_playing = true → ∀ t2,
      s.current_track_index + 1 < (s.tracks.length : Int) →
      pyIndex s.tracks (s.current_track_index + 1) = some t2 →
      handle_track_end true now s = Except.ok { s with
        current_track_index := s.current_track_index + 1
        is_playing := true
        scrobble_timer := some s.next_timer_id
        armed := s.next_timer_id :: s.armed
        next_timer_id := s.next_timer_id + 1
        stop_timer := false
        events := s.events ++
          [Event.scrobble t.artist t.title t.album t.duration_seconds now,
           Event.nowPlaying t2.artist t2.title t2.album t2.duration_seconds] } := by
    intro hp t2 hlt2 ht2
    rw [handle_track_end, if_neg (by simp [hp]), ht]
    simp only [scrobble_track]
    rw [if_neg (by omega)]
    have hsp := start_playback_ok
      { s with current_track_index := s.current_track_index + 1
               events := s.events ++
                 [Event.scrobble t.artist t.title t.album t.duration_seconds now] } t2
      (by simpa using ht2)
    simp only [hsp]
    simp [List.append_assoc]
  refine ⟨hnoop, hwrap, hadv, ?_, by decide, by decide, by decide, by decide,
    by decide, by decide⟩
  intro s2 hp h2
  rcases lt_or_eq_of_le (by omega : s.current_track_index + 1 ≤ (s.tracks.length : Int))
    with hlt2 | heq
  · obtain ⟨t2, ht2⟩ := pyIndex_some_of_lt s.tracks (s.current_track_index + 1)
      (by omega) hlt2
    rw [hadv hp t2 hlt2 ht2] at h2
    cases h2
    simp only
    rw [Int.emod_eq_of_lt (by omega) (by omega)]
  · rw [hwrap hp heq] at h2
    cases h2
    simp only
    rw [← heq, Int.emod_self]

/-- C1 witness: the theorem applied to the playing two-track engine. -/
theorem handle_track_end_advances_and_scrobbles_witness :
    (sPlaying.is_playing = false →
      handle_track_end true 100 sPlaying = Except.ok sPlaying) ∧
    (sPlaying.is_playing = true →
      sPlaying.current_track_index + 1 = (sPlaying.tracks.length : Int) →
      handle_track_end true 100 sPlaying = Except.ok { sPlaying with
        current_track_index := 0
        is_playing := false
        stop_timer := true
        armed := match sPlaying.scrobble_timer with
                 | some h => sPlaying.armed.erase h
                 | none => sPlaying.armed
        events := sPlaying.events ++
          [Event.scrobble "Artist" "Song One" "Album" 125 100,
           Event.albumEnded] }) ∧
    (sPlaying.is_playing = true → ∀ t2,
      sPlaying.current_track_index + 1 < (sPlaying.tracks.length : Int) →
      pyIndex sPlaying.tracks (sPlaying.current_track_index + 1) = some t2 →
      handle_track_end true 100 sPlaying = Except.ok { sPlaying with
        current_track_index := sPlaying.current_track_index + 1
        is_playing := true
        scrobble_timer := some sPlaying.next_timer_id
        armed := sPlaying.next_timer_id :: sPlaying.armed
        next_timer_id := sPlaying.next_timer_id + 1
        stop_timer := false
        events := sPlaying.events ++
          [Event.scrobble "Artist" "Song One" "Album" 125 100,
           Event.nowPlaying t2.artist t2.title t2.album t2.duration_seconds] }) ∧
    (∀ s2, sPlaying.is_playing = true →
      handle_track_end true 100 sPlaying = Except.ok s2 →
      s2.current_track_index =
        (sPlaying.current_track_index + 1) % (sPlaying.tracks.length : Int)) ∧
    sAlbumEnd.events =
      [Event.nowPlaying "Artist" "Song One" "Album" 125,
       Event.scrobble "Artist" "Song One" "Album" 125 100,
       Event.nowPlaying "Artist" "Song Two" "Album" 210,
       Event.scrobble "Artist" "Song Two" "Album" 210 200,
       Event.albumEnded] ∧
    sAlbumEnd.events.countP Event.isScrobble = 2 ∧
    sAlbumEnd.events.countP Event.isNowPlaying = 2 ∧
    sAlbumEnd.is_playing = false ∧
    sAlbumEnd.current_track_index = 0 ∧
    sAlbumEnd.armed = [] :=
  handle_track_end_advances_and_scrobbles sPlaying 100 trackA
    (by decide) (by decide) (by decide)

/-- C2 counterexample: with the two-track album loaded, pressing play while
the now-playing call fails leaves the engine stopped with no completion
timer armed — the claim says playback still starts (isPlaying true, timer
armed) when the now-playing call fails. -/
theorem start_failure_leaves_stopped_cex :
    (togglePlayback false sLoaded).is_playing = false ∧
    (togglePlayback false sLoaded).armed = [] ∧
    (togglePlayback false sLoaded).events =
      [Event.nowPlaying "Artist" "Song One" "Album" 125] := by decide

/-- C2 (amended): a failing `update_now_playing` call in `start_playback` is
logged and re-raised, not swallowed: the state transition is aborted —
`is_playing` stays as it was, no completion timer is armed, and only the
attempted call is recorded; the exception propagates to the caller. -/
theorem start_playback_failure_raises (s : EngineState) (t : Track)
    (ht : pyIndex s.tracks s.current_track_index = some t) :
    start_playback false s = Except.error { s with events :=
      s.events ++ [Event.nowPlaying t.artist t.title t.album t.duration_seconds] } :=
  start_playback_err s t ht

/-- C2 witness -/
theorem start_playback_failure_raises_witness :
    start_playback false sLoaded = Except.error { sLoaded with events :=
      sLoaded.events ++ [Event.nowPlaying "Artist" "Song One" "Album" 125] } :=
  start_playback_failure_raises sLoaded trackA (by decide)

/-- C3 counterexample: skipping to the previous track while playing leaves
the engine still playing with the old completion timer armed — the claim
says `skipToPrevious` first stops playback and always leaves the engine
stopped. -/
theorem previous_track_keeps_playing_cex :
    (previous_track sPlaying).is_playing = true ∧
    (previous_track sPlaying).armed = [0] ∧
    (previous_track sPlaying).current_track_index = 1 := by decide

/-- C3 (amended): on a non-empty track list `previous_track` decrements
`current_track_index`, wrapping to `length - 1` below zero (i.e. subtraction
of one mod length), and emits no scrobble; but it does **not** stop
playback: `is_playing`, the armed timers and the stored timer handle are all
left unchanged, so while playing the engine stays playing. -/
theorem previous_track_wraps_without_stopping (s : EngineState)
    (h0 : 0 ≤ s.current_track_index)
    (hlt : s.current_track_index < (s.tracks.length : Int)) :
    (previous_track s).current_track_index =
      (s.current_track_index - 1) % (s.tracks.length : Int) ∧
    (previous_track s).is_playing = s.is_playing ∧
    (previous_track s).armed = s.armed ∧
    (previous_track s).scrobble_timer = s.scrobble_timer ∧
    (previous_track s).events = s.events ∧
    (previous_track s).tracks = s.tracks := by
  rw [previous_track_eq s h0 hlt]
  exact ⟨rfl, rfl, rfl, rfl, rfl, rfl⟩

/-- C3 witness -/
theorem previous_track_wraps_without_stopping_witness :
    (previous_track sPlaying).current_track_index =
      (sPlaying.current_track_index - 1) % (sPlaying.tracks.length : Int) ∧
    (previous_track sPlaying).is_playing = sPlaying.is_playing ∧
    (previous_track sPlaying).armed = sPlaying.armed ∧
    (previous_track sPlaying).scrobble_timer = sPlaying.scrobble_timer ∧
    (previous_track sPlaying).events = sPlaying.events ∧
    (previous_track sPlaying).tracks = sPlaying.tracks :=
  previous_track_wraps_without_stopping sPlaying (by decide) (by decide)

/-- C4: evaluating the code at the failing input — a manual skip-to-next
while the first track of the two-track album is playing.  `start_playback`
arms a fresh completion timer without cancelling the one armed for the
skipped track, so two completion timers are armed at once (ids 1 and 0),
violating the at-most-one-armed-timer invariant the claim states. -/
theorem two_timers_armed_after_skip_while_playing :
    sPlaying.armed = [0] ∧
    (next_track true 50 sPlaying).armed = [1, 0] ∧
    (next_track true 50 sPlaying).armed.length = 2 ∧
    (next_track true 50 sPlaying).is_playing = true := by decide

/-- C5 counterexample: loading a release whose tracklist holds only a
heading (zero playable tracks) raises nothing and does not keep the prior
state — the previously loaded two-track list is discarded and replaced by
the empty list, while the claim says the load fails with `EmptyAlbum` and
the engine keeps its prior track list. -/
theorem load_empty_album_discards_prior_cex :
    (load_album (some relHeadingsOnly) sLoaded).tracks = [] ∧
    sLoaded.tracks ≠ [] ∧
    load_album (some relHeadingsOnly) sLoaded ≠ sLoaded := by decide

/-- C5 (amended): loading an album whose catalog yields zero playable tracks
succeeds silently — no `EmptyAlbum` error exists in the code.  The engine
does not remain in its prior state: the track list is replaced by the empty
list, the index reset to 0, playback marked stopped, and the stored
completion timer cancelled. -/
theorem load_album_zero_playable_resets (prior : EngineState) (r : Release)
    (h : r.tracklist.filter (fun t => t.type_ ≠ "heading") = []) :
    load_album (some r) prior = cancelStoredTimer
      { prior with tracks := [], current_track_index := 0, is_playing := false } := by
  simp only [load_album, h, List.map_nil]

/-- C5 witness -/
theorem load_album_zero_playable_resets_witness :
    load_album (some relHeadingsOnly) sLoaded = cancelStoredTimer
      { sLoaded with tracks := [], current_track_index := 0, is_playing := false } :=
  load_album_zero_playable_resets sLoaded relHeadingsOnly (by decide)

/-- C6 counterexample: a non-empty catalog duration string that fails to
parse does *not* fall through to the lookup service — `int('garbage')`
raises an uncaught `ValueError`, so even with the lookup able to return
185000 ms the resolution raises instead of yielding `(185, "3:05")`. -/
theorem unparseable_duration_raises_cex :
    get_track_duration "garbage" (LookupResult.ok 185000) = Except.error () ∧
    get_track_duration "garbage" (LookupResult.ok 185000) ≠
      Except.ok ("3:05", 185) := by
  refine ⟨rfl, ?_⟩
  intro h
  rw [show get_track_duration "garbage" (LookupResult.ok 185000) =
    Except.error () from rfl] at h
  exact nomatch h

/-- C6 (amended): only when the catalog duration string is empty (or
whitespace-only) does `get_track_duration` query the external lookup for
`(artist, title)`; a positive millisecond result is integer-divided by
1000 and displayed `minutes:seconds` with two-digit seconds, so
`resolve("", "Artist", "Title")` with the lookup returning 185000 ms
yields `(185, "3:05")`; a lookup failure falls back to `("3:30", 210)`.
A non-empty unparseable string instead raises (see the counterexample). -/
theorem empty_duration_queries_lookup (ms : Int) (hms : 0 < ms) :
    get_track_duration "" (LookupResult.ok ms) =
      Except.ok (fmtMinSec (ms / 1000), ms / 1000) ∧
    fmtMinSec (185000 / 1000) = "3:05" ∧
    get_track_duration "" LookupResult.err = Except.ok ("3:30", 210) := by
  refine ⟨?_, by decide, rfl⟩
  simp [get_track_duration, get_track_duration_from_lastfm, hms]

/-- C6 witness -/
theorem empty_duration_queries_lookup_witness :
    get_track_duration "" (LookupResult.ok 185000) =
      Except.ok (fmtMinSec (185000 / 1000), 185000 / 1000) ∧
    fmtMinSec (185000 / 1000) = "3:05" ∧
    get_track_duration "" LookupResult.err = Except.ok ("3:30", 210) :=
  empty_duration_queries_lookup 185000 (by decide)

/-- C7 counterexample: `get_track_duration` does not clamp — the parseable
catalog string `"0:00"` yields 0 seconds (whatever the lookup could return),
not 1 as the claim requires of every input. -/
theorem duration_zero_not_clamped_cex :
    get_track_duration "0:00" LookupResult.err = Except.ok ("0:00", 0) ∧
    get_track_duration "0:00" (LookupResult.ok 185000) = Except.ok ("0:00", 0) ∧
    ¬ (1 : Int) ≤ 0 := by
  exact ⟨rfl, rfl, by decide⟩

/-- C7 (amended): the duration parsing inlined in `load_album` always
produces at least 1 second — `"0:00"` is clamped up to 1 by `max(…, 1)` and
every fallback yields 210 — so every `Track` a load installs satisfies
`durationSeconds ≥ 1`; the clamp does *not* hold for the separate
`get_track_duration` fallback chain (see the counterexample). -/
theorem load_album_durations_clamped (d : String) (r : Release)
    (s : EngineState) (tr : Track)
    (htr : tr ∈ (load_album (some r) s).tracks) :
    1 ≤ (parse_duration_load d).2 ∧ 1 ≤ tr.duration_seconds := by
  refine ⟨parse_duration_load_pos d, ?_⟩
  rw [load_album_tracks] at htr
  obtain ⟨raw, _, hb⟩ := List.mem_map.mp htr
  rw [← hb, buildTrack_duration_seconds]
  exact parse_duration_load_pos raw.duration

/-- C7 witness -/
theorem load_album_durations_clamped_witness :
    1 ≤ (parse_duration_load "0:00").2 ∧ 1 ≤ trackA.duration_seconds :=
  load_album_durations_clamped "0:00" relAB initState trackA (by decide)

/-- C8: for every playing state with a resolvable index, `stop_playback`
cancels both timers (remove the stored completion timer from the armed set,
set the ticker's stop flag), sets `is_playing` false, emits no scrobble
call and leaves the index, the track list and the recorded calls unchanged
(full record equality).  The load / toggle-start / stop trace makes zero
scrobble calls and exactly one now-playing call. -/
theorem stop_playback_no_scrobble (s : EngineState) (t : Track)
    (hp : s.is_playing = true)
    (ht : pyIndex s.tracks s.current_track_index = some t) :
    stop_playback s = Except.ok { s with
      is_playing := false
      stop_timer := true
      armed := match s.scrobble_timer with
               | some h => s.armed.erase h
               | none => s.armed } ∧
    (togglePlayback true sPlaying).events =
      [Event.nowPlaying "Artist" "Song One" "Album" 125] ∧
    (togglePlayback true sPlaying).events.countP Event.isNowPlaying = 1 ∧
    (togglePlayback true sPlaying).events.countP Event.isScrobble = 0 ∧
    (togglePlayback true sPlaying).is_playing = false ∧
    (togglePlayback true sPlaying).current_track_index =
      sPlaying.current_track_index ∧
    (togglePlayback true sPlaying).tracks = sPlaying.tracks ∧
    (togglePlayback true sPlaying).armed = [] :=
  ⟨stop_playback_ok s t ht, by decide, by decide, by decide, by decide,
   by decide, by decide, by decide⟩

/-- C8 witness -/
theorem stop_playback_no_scrobble_witness :
    stop_playback sPlaying = Except.ok { sPlaying with
      is_playing := false
      stop_timer := true
      armed := match sPlaying.scrobble_timer with
               | some h => sPlaying.armed.erase h
               | none => sPlaying.armed } ∧
    (togglePlayback true sPlaying).events =
      [Event.nowPlaying "Artist" "Song One" "Album" 125] ∧
    (togglePlayback true sPlaying).events.countP Event.isNowPlaying = 1 ∧
    (togglePlayback true sPlaying).events.countP Event.isScrobble = 0 ∧
    (togglePlayback true sPlaying).is_playing = false ∧
    (togglePlayback true sPlaying).current_track_index =
      sPlaying.current_track_index ∧
    (togglePlayback true sPlaying).tracks = sPlaying.tracks ∧
    (togglePlayback true sPlaying).armed = [] :=
  stop_playback_no_scrobble sPlaying trackA (by decide) (by decide)

/-- C9: applying `previous_track` `length` times from any valid start
returns `current_track_index` to its original value (the
decrement-with-wrap navigation is cyclic with period `length`), with the
track list unchanged throughout. -/
theorem previous_track_cycle (s : EngineState)
    (h0 : 0 ≤ s.current_track_index)
    (hlt : s.current_track_index < (s.tracks.length : Int)) :
    (previous_track^[s.tracks.length] s).current_track_index =
      s.current_track_index ∧
    (previous_track^[s.tracks.length] s).tracks = s.tracks := by
  obtain ⟨htr, hidx⟩ := previous_track_iter s h0 hlt s.tracks.length
  refine ⟨?_, htr⟩
  rw [hidx]
  rw [show s.current_track_index - (s.tracks.length : Int) =
    s.current_track_index + (s.tracks.length : Int) * (-1) from by ring]
  rw [Int.add_mul_emod_self_left]
  exact Int.emod_eq_of_lt h0 hlt

/-- C9 witness -/
theorem previous_track_cycle_witness :
    (previous_track^[sPlaying.tracks.length] sPlaying).current_track_index =
      sPlaying.current_track_index ∧
    (previous_track^[sPlaying.tracks.length] sPlaying).tracks =
      sPlaying.tracks :=
  previous_track_cycle sPlaying (by decide) (by decide)

/-- C10: when `handle_track_end` passes the playing guard and starting the
next (non-last) track raises because the now-playing call failed, the
`except` clause catches the exception and invokes `stop_playback`: the call
returns normally (`ok`, nothing propagates to the timer thread) and the
engine ends not playing, at the advanced index, with the scrobble for the
finished track and the attempted now-playing call recorded. -/
theorem failed_advance_stops_engine (s : EngineState) (now : Nat) (t t2 : Track)
    (hp : s.is_playing = true)
    (h0 : 0 ≤ s.current_track_index)
    (hlt : s.current_track_index + 1 < (s.tracks.length : Int))
    (ht : pyIndex s.tracks s.current_track_index = some t)
    (ht2 : pyIndex s.tracks (s.current_track_index + 1) = some t2) :
    handle_track_end false now s = Except.ok { s with
      current_track_index := s.current_track_index + 1
      is_playing := false
      stop_timer := true
      armed := match s.scrobble_timer with
               | some h => s.armed.erase h
               | none => s.armed
      events := s.events ++
        [Event.scrobble t.artist t.title t.album t.duration_seconds now,
         Event.nowPlaying t2.artist t2.title t2.album t2.duration_seconds] } ∧
    (∀ s2, handle_track_end false now s = Except.ok s2 → s2.is_playing = false) := by
  have hmain : handle_track_end false now s = Except.ok { s with
      current_track_index := s.current_track_index + 1
      is_playing := false
      stop_timer := true
      armed := match s.scrobble_timer with
               | some h => s.armed.erase h
               | none => s.armed
      events := s.events ++
        [Event.scrobble t.artist t.title t.album t.duration_seconds now,
         Event.nowPlaying t2.artist t2.title t2.album t2.duration_seconds] } := by
    rw [handle_track_end]
    rw [if_neg (by simp [hp])]
    rw [ht]
    simp only [scrobble_track]
    rw [if_neg (by omega)]
    have hsp := start_playback_err
      { s with current_track_index := s.current_track_index + 1
               events := s.events ++
                 [Event.scrobble t.artist t.title t.album t.duration_seconds now] } t2
      (by simpa using ht2)
    simp only [hsp]
    have hstop := stop_playback_ok
      { s with current_track_index := s.current_track_index + 1
               events := s.events ++
                 [Event.scrobble t.artist t.title t.album t.duration_seconds now,
                  Event.nowPlaying t2.artist t2.title t2.album t2.duration_seconds] } t2
      (by simpa using ht2)
    simp only [List.append_assoc] at hstop ⊢
    simpa using hstop
  refine ⟨hmain, ?_⟩
  intro s2 h2
  rw [hmain] at h2
  cases h2
  rfl

/-- C10 witness -/
theorem failed_advance_stops_engine_witness :
    handle_track_end false 100 sPlaying = Except.ok { sPlaying with
      current_track_index := sPlaying.current_track_index + 1
      is_playing := false
      stop_timer := true
      armed := match sPlaying.scrobble_timer with
               | some h => sPlaying.armed.erase h
               | none => sPlaying.armed
      events := sPlaying.events ++
        [Event.scrobble "Artist" "Song One" "Album" 125 100,
         Event.nowPlaying "Artist" "Song Two" "Album" 210] } ∧
    (∀ s2, handle_track_end false 100 sPlaying = Except.ok s2 →
      s2.is_playing = false) :=
  failed_advance_stops_engine sPlaying 100 trackA trackB (by decide) (by decide)
    (by decide) (by decide) (by decide)
